import Mathlib

/-!
Shallow embedding of the RTOScppESP32 wrapper library (src/src/RTOScppQueue.h,
RTOScppLock.h, RTOScppRingBuffer.h, RTOScppBuffer.h, RTOScppTimer.h,
RTOScppQueueSet.h) together with a model of the FreeRTOS kernel primitives the
wrappers call.

Modelling conventions:
- A kernel handle (a machine pointer) is abstracted as a `Nat`; a nullable
  handle field is `Option Nat` with `none` standing for `nullptr`.
- Each wrapper owns exactly one kernel object, so the wrapper record carries
  the kernel object's state next to the handle; a kernel primitive that
  dereferences the wrapper's handle operates on that carried state.
- Blocking kernel calls are modelled by their immediate outcome (the state of
  the object decides success), which is the single-task view used by the
  library's own unit tests; the tick argument does not change that outcome.
- Calls that the FreeRTOS kernel documents as undefined on a `nullptr` handle
  are modelled as returning `none` (no defined result).
- `create` style functions additionally return a `Nat` counting how many times
  the kernel create primitive was invoked during the call (0 or 1), so that
  re-creation of an already created object is observable.
-/

namespace RTOScpp

/-! ## Queues: model of src/src/RTOScppQueue.h -/

namespace Queues

/-- FreeRTOS queue kernel object: a bounded FIFO of `length` slots. The front
of the queue is the head of `items`. -/
structure KQueue where
  length : Nat
  items : List Int
deriving DecidableEq

/-- Kernel primitive uxQueueMessagesWaiting: number of queued items. -/
def uxQueueMessagesWaiting (q : KQueue) : Nat := q.items.length

/-- Kernel primitive uxQueueSpacesAvailable: number of free slots. -/
def uxQueueSpacesAvailable (q : KQueue) : Nat := q.length - q.items.length

/-- Kernel primitive xQueueSendToBack: append when a slot is free, otherwise
fail (immediate outcome of the call, see the modelling conventions). -/
def xQueueSendToBack (q : KQueue) (x : Int) : Bool × KQueue :=
  if q.items.length < q.length then (true, { q with items := q.items ++ [x] })
  else (false, q)

/-- Kernel primitive xQueueSendToFront: prepend when a slot is free, otherwise
fail. -/
def xQueueSendToFront (q : KQueue) (x : Int) : Bool × KQueue :=
  if q.items.length < q.length then (true, { q with items := x :: q.items })
  else (false, q)

/-- Kernel primitive xQueueReceive: remove and return the front item, `none`
when the queue is empty. -/
def xQueueReceive (q : KQueue) : Option Int × KQueue :=
  match q.items with
  | [] => (none, q)
  | x :: rest => (some x, { q with items := rest })

/-- Kernel primitive xQueuePeek: read the front item without removing it. -/
def xQueuePeek (q : KQueue) : Option Int := q.items.head?

/-- Kernel primitive xQueueOverwrite: append when a slot is free, otherwise
overwrite the most recently written slot; always succeeds. -/
def xQueueOverwrite (q : KQueue) (x : Int) : KQueue :=
  if q.items.length < q.length then { q with items := q.items ++ [x] }
  else { q with items := q.items.dropLast ++ [x] }

/-- Kernel primitive xQueueReset: discard all queued items. -/
def xQueueReset (q : KQueue) : KQueue := { q with items := [] }

/-- Kernel primitive xQueueCreateStatic: initialise a fresh empty queue inside
the caller-supplied control block; the returned handle is the address of that
control block (`ctrl`), and creation with valid storage always succeeds. -/
def xQueueCreateStatic (len : Nat) (ctrl : Nat) : Nat × KQueue :=
  (ctrl, { length := len, items := [] })

/-- The Queue wrapper (class `Internal::Queue` of RTOScppQueue.h): the `_handle`
pointer plus the kernel queue object it points to (`kq` is meaningful only when
`handle` is set). -/
structure Queue where
  handle : Option Nat
  kq : KQueue
deriving DecidableEq

/-- Queue::getHandle (RTOScppQueue.h line 177). -/
def Queue.getHandle (w : Queue) : Option Nat := w.handle

/-- Queue::isCreated (line 183): `_handle != nullptr`. -/
def Queue.isCreated (w : Queue) : Bool := w.handle.isSome

/-- Queue::operator bool (line 261): `return isCreated();`. -/
def Queue.opBool (w : Queue) : Bool := w.isCreated

/-- Queue::getAvailableMessages (lines 189-192): 0 when not created, else
uxQueueMessagesWaiting. -/
def Queue.getAvailableMessages (w : Queue) : Nat :=
  match w.handle with
  | none => 0
  | some _ => uxQueueMessagesWaiting w.kq

/-- Queue::getAvailableSpaces (lines 207-210): 0 when not created, else
uxQueueSpacesAvailable. -/
def Queue.getAvailableSpaces (w : Queue) : Nat :=
  match w.handle with
  | none => 0
  | some _ => uxQueueSpacesAvailable w.kq

/-- Queue::isFull (lines 225-228): false when not created, else whether no
space is available. -/
def Queue.isFull (w : Queue) : Bool :=
  match w.handle with
  | none => false
  | some _ => uxQueueSpacesAvailable w.kq == 0

/-- Queue::isEmpty (lines 234-237): false when not created, else whether no
message is waiting. -/
def Queue.isEmpty (w : Queue) : Bool :=
  match w.handle with
  | none => false
  | some _ => uxQueueMessagesWaiting w.kq == 0

/-- Queue::reset (lines 216-219). The source reads
`if (!isCreated()) return false; xQueueReset(getHandle());` — on the created
path the function body ends without a return statement, so the bool result is
undefined there; the undefined return value is modelled as `none`. -/
def Queue.reset (w : Queue) : Option Bool × Queue :=
  match w.handle with
  | none => (some false, w)
  | some _ => (none, { w with kq := xQueueReset w.kq })

/-- Queue::add (lines 292-295): guarded FIFO enqueue via xQueueSendToBack. -/
def Queue.add (w : Queue) (x : Int) : Bool × Queue :=
  match w.handle with
  | none => (false, w)
  | some _ =>
    let r := xQueueSendToBack w.kq x
    (r.1, { w with kq := r.2 })

/-- Queue::addFromISR (lines 304-307): guarded, via xQueueSendToBackFromISR
(same immediate outcome as xQueueSendToBack; the task-woken out-parameter is
not modelled). -/
def Queue.addFromISR (w : Queue) (x : Int) : Bool × Queue :=
  match w.handle with
  | none => (false, w)
  | some _ =>
    let r := xQueueSendToBack w.kq x
    (r.1, { w with kq := r.2 })

/-- Queue::push (lines 269-272): guarded LIFO enqueue via xQueueSendToFront. -/
def Queue.push (w : Queue) (x : Int) : Bool × Queue :=
  match w.handle with
  | none => (false, w)
  | some _ =>
    let r := xQueueSendToFront w.kq x
    (r.1, { w with kq := r.2 })

/-- Queue::pop (lines 315-318): guarded dequeue via xQueueReceive. The C++
out-parameter plus bool result is modelled as `Option Int` (`some v` is a
successful pop of `v`). -/
def Queue.pop (w : Queue) : Option Int × Queue :=
  match w.handle with
  | none => (none, w)
  | some _ =>
    let r := xQueueReceive w.kq
    (r.1, { w with kq := r.2 })

/-- Queue::popFromISR (lines 327-330): same outcome as pop. -/
def Queue.popFromISR (w : Queue) : Option Int × Queue :=
  match w.handle with
  | none => (none, w)
  | some _ =>
    let r := xQueueReceive w.kq
    (r.1, { w with kq := r.2 })

/-- Queue::peek (lines 338-341): guarded read of the front item. -/
def Queue.peek (w : Queue) : Option Int :=
  match w.handle with
  | none => none
  | some _ => xQueuePeek w.kq

/-- Queue::overwrite (lines 359-362): guarded xQueueOverwrite, which always
succeeds on a created queue. -/
def Queue.overwrite (w : Queue) (x : Int) : Bool × Queue :=
  match w.handle with
  | none => (false, w)
  | some _ => (true, { w with kq := xQueueOverwrite w.kq x })

/-- ExternalStoragePolicy::create (RTOScppQueue.h lines 152-156):
`if (buffer == nullptr) return false;
 this->_handle = xQueueCreateStatic(Length, sizeof(T), buffer, &_queue_buffer);
 return (this->_handle != nullptr);`
There is no already-created guard: a second call re-runs the kernel create
primitive on the same control block. `len` is the Length template argument,
`ctrl` the (fixed, per-instance) address of the embedded `_queue_buffer`
control block, `buffer` the caller-supplied storage pointer. The trailing `Nat`
counts kernel create invocations performed by this call. -/
def ExternalStoragePolicy.create (w : Queue) (len ctrl : Nat) (buffer : Option Nat) :
    Bool × Queue × Nat :=
  match buffer with
  | none => (false, w, 0)
  | some _ =>
    let r := xQueueCreateStatic len ctrl
    (true, { handle := some r.1, kq := r.2 }, 1)

/-- Sequence of Queue::add calls, keeping only the final wrapper state. -/
def Queue.addAll (w : Queue) : List Int → Queue
  | [] => w
  | x :: xs => ((w.add x).2).addAll xs

/-- Sequence of n Queue::pop calls, keeping only the final wrapper state. -/
def Queue.popAll (w : Queue) : Nat → Queue
  | 0 => w
  | n + 1 => ((w.pop).2).popAll n

/-- Sequence of n Queue::pop calls collecting the successfully popped values in
order. -/
def Queue.popN (w : Queue) : Nat → List Int × Queue
  | 0 => ([], w)
  | n + 1 =>
    match w.pop with
    | (none, w2) => ([], w2)
    | (some v, w2) =>
      let r := w2.popN n
      (v :: r.1, r.2)

end Queues

/-! ## Locks: model of src/src/RTOScppLock.h -/

namespace Locks

/-- The Lock wrapper (class `Internal::Lock` of RTOScppLock.h): the `_handle`
pointer plus the kernel semaphore state it points to. `avail` is the number of
currently available tokens (for a mutex: 1 when free, 0 when taken) and
`maxCount` its ceiling (1 for mutexes and binary semaphores); both are
meaningful only when `handle` is set. -/
structure Lock where
  handle : Option Nat
  avail : Nat
  maxCount : Nat
deriving DecidableEq

/-- Lock::getHandle (RTOScppLock.h line 253). -/
def Lock.getHandle (l : Lock) : Option Nat := l.handle

/-- Policy::isCreated (line 80): `_handle != nullptr`. -/
def Lock.isCreated (l : Lock) : Bool := l.handle.isSome

/-- Lock::operator bool (line 278): `return isCreated();`. -/
def Lock.opBool (l : Lock) : Bool := l.isCreated

/-- Kernel primitive xSemaphoreTake: succeed and consume a token when one is
available, otherwise fail (immediate outcome of the call). -/
def xSemaphoreTake (avail : Nat) : Bool × Nat :=
  match avail with
  | 0 => (false, 0)
  | n + 1 => (true, n)

/-- Kernel primitive xSemaphoreGive: succeed and release a token when below
the ceiling, otherwise fail. -/
def xSemaphoreGive (avail maxCount : Nat) : Bool × Nat :=
  if avail < maxCount then (true, avail + 1) else (false, avail)

/-- Policy::take (lines 82-85): `if (!isCreated()) return false;` then the
takeImpl kernel call. -/
def Lock.take (l : Lock) : Bool × Lock :=
  match l.handle with
  | none => (false, l)
  | some _ =>
    let r := xSemaphoreTake l.avail
    (r.1, { l with avail := r.2 })

/-- Policy::give (lines 87-90): `if (!isCreated()) return false;` then the
giveImpl kernel call. -/
def Lock.give (l : Lock) : Bool × Lock :=
  match l.handle with
  | none => (false, l)
  | some _ =>
    let r := xSemaphoreGive l.avail l.maxCount
    (r.1, { l with avail := r.2 })

/-- operator==(QueueSetMemberHandle_t, ILock) (RTOScppLock.h lines 64-66):
`return queue_set_member == lock.getHandle();` — plain handle identity. The
token returned by a select is a non-null member handle, modelled as a bare
`Nat`. -/
def lockMemberEq (token : Nat) (l : Lock) : Bool :=
  some token == l.getHandle

end Locks

/-- operator==(QueueSetMemberHandle_t, IQueue) (RTOScppQueue.h lines 98-100):
`return queue_set_member == queue.getHandle();` — plain handle identity. -/
def Queues.queueMemberEq (token : Nat) (q : Queues.Queue) : Bool :=
  some token == q.getHandle

/-! ## Ring buffers: model of src/src/RTOScppRingBuffer.h -/

namespace RingBuffers

/-- Rounding up to the next multiple of 4, as in the REQUIRED_SIZE constants of
RTOScppRingBuffer.h (`4 * ((Length + 3) / 4)`). -/
def align4 (n : Nat) : Nat := 4 * ((n + 3) / 4)

/-- FreeRTOS no-split ring buffer kernel object: total byte capacity `size`
and the committed items, recorded oldest first by their payload size. -/
structure KRingbuf where
  size : Nat
  items : List Nat
deriving DecidableEq

/-- Bytes consumed by the committed items: each no-split item is accounted as
its 4-byte-aligned payload plus an 8-byte header (spec section 4.1 sizing
rule). -/
def KRingbuf.used (rb : KRingbuf) : Nat :=
  (rb.items.map (fun s => align4 s + 8)).sum

/-- Kernel primitive xRingbufferSend on a raw (nullable) handle: dereferencing
a `nullptr` handle is undefined (`none`); otherwise commit the item when it
fits, fail when it does not (immediate outcome of the call). -/
def xRingbufferSend (h : Option KRingbuf) (itemSize : Nat) : Option (Bool × KRingbuf) :=
  match h with
  | none => none
  | some rb =>
    if rb.used + (align4 itemSize + 8) ≤ rb.size then
      some (true, { rb with items := rb.items ++ [itemSize] })
    else
      some (false, rb)

/-- Kernel primitive xRingbufferSendFromISR: same immediate outcome as
xRingbufferSend (the task-woken out-parameter is not modelled); undefined on a
`nullptr` handle. -/
def xRingbufferSendFromISR (h : Option KRingbuf) (itemSize : Nat) :
    Option (Bool × KRingbuf) :=
  xRingbufferSend h itemSize

/-- Kernel primitive xRingbufferReceive: remove and return (the size of) the
oldest committed item, `none` when nothing is readable. -/
def xRingbufferReceive (rb : KRingbuf) : Option Nat × KRingbuf :=
  match rb.items with
  | [] => (none, rb)
  | s :: rest => (some s, { rb with items := rest })

/-- The RingBuffer wrapper (class `Internal::RingBuffer` of
RTOScppRingBuffer.h): the `_handle` pointer plus the kernel ring buffer object
it points to (`krb` is meaningful only when `handle` is set). -/
structure RingBuffer where
  handle : Option Nat
  krb : KRingbuf
deriving DecidableEq

/-- The raw handle value the wrapper passes to kernel primitives: the kernel
object when `_handle` is non-null, `none` for `nullptr`. -/
def RingBuffer.deref (w : RingBuffer) : Option KRingbuf :=
  match w.handle with
  | none => none
  | some _ => some w.krb

/-- RingBuffer::getHandle (RTOScppRingBuffer.h line 421). -/
def RingBuffer.getHandle (w : RingBuffer) : Option Nat := w.handle

/-- Policy::isCreated (line 84): `_handle != nullptr`. -/
def RingBuffer.isCreated (w : RingBuffer) : Bool := w.handle.isSome

/-- RingBuffer::operator bool (line 451): `return isCreated();`. -/
def RingBuffer.opBool (w : RingBuffer) : Bool := w.isCreated

/-- Policy::send (lines 94-98): `if (!isCreated()) return false;` then
xRingbufferSend on the handle. -/
def RingBuffer.send (w : RingBuffer) (itemSize : Nat) : Option (Bool × RingBuffer) :=
  match w.handle with
  | none => some (false, w)
  | some _ =>
    match xRingbufferSend w.deref itemSize with
    | none => none
    | some (ok, rb) => some (ok, { w with krb := rb })

/-- Policy::sendFromISR (lines 109-111):
`return xRingbufferSendFromISR(this->_handle, item, item_size, &task_woken);`
— unlike every sibling operation there is no `isCreated()` guard, so the raw
(possibly null) `_handle` is passed straight to the kernel. -/
def RingBuffer.sendFromISR (w : RingBuffer) (itemSize : Nat) :
    Option (Bool × RingBuffer) :=
  match xRingbufferSendFromISR w.deref itemSize with
  | none => none
  | some (ok, rb) => some (ok, { w with krb := rb })

/-- NoSplitPolicy::receive (lines 155-158): guarded xRingbufferReceive; the
returned item pointer is modelled by the received item's size (`some s`), with
`none` for a null pointer result. -/
def RingBuffer.receive (w : RingBuffer) : Option Nat × RingBuffer :=
  match w.handle with
  | none => (none, w)
  | some _ =>
    let r := xRingbufferReceive w.krb
    (r.1, { w with krb := r.2 })

/-- Modelled from the spec: the kernel readability query xRingbufferCanRead,
whose implementation lives in the external ESP-IDF kernel, not in this
repository. Per spec section 4.2 it answers whether the token indicates this
ring buffer (the token is the ring buffer's wait handle) and the ring buffer
currently holds at least one fully committed, readable item. The wrapper is
passed in place of the raw handle it carries, following the handle-dereference
convention of this file. -/
def xRingbufferCanRead (w : RingBuffer) (token : Nat) : Bool :=
  (w.getHandle == some token) && !w.krb.items.isEmpty

/-- operator==(QueueSetMemberHandle_t, IRingBuffer) (RTOScppRingBuffer.h lines
63-65): `return xRingbufferCanRead(ringbuf.getHandle(), queue_set_member);` —
a kernel readability query, not handle identity. -/
def ringbufMemberEq (token : Nat) (w : RingBuffer) : Bool :=
  xRingbufferCanRead w token

/-- Kernel primitive xRingbufferCreateStatic (no-split): initialise a fresh
empty ring buffer of the given byte size in the caller-supplied control block
at address `ctrl`; creation with valid storage always succeeds. -/
def xRingbufferCreateStatic (size ctrl : Nat) : Nat × KRingbuf :=
  (ctrl, { size := size, items := [] })

/-- NoSplitExternalStoragePolicy::create (RTOScppRingBuffer.h lines 211-218):
`if (buffer == nullptr) return false;` then an unconditional
xRingbufferCreateStatic into the embedded control block; no already-created
guard. `size` is the (aligned) REQUIRED_SIZE, `ctrl` the fixed address of the
embedded `_ringbuf_buffer`, and the trailing `Nat` counts kernel create
invocations performed by this call. -/
def NoSplitExternalStoragePolicy.create (w : RingBuffer) (size ctrl : Nat)
    (buffer : Option Nat) : Bool × RingBuffer × Nat :=
  match buffer with
  | none => (false, w, 0)
  | some _ =>
    let r := xRingbufferCreateStatic size ctrl
    (true, { handle := some r.1, krb := r.2 }, 1)

end RingBuffers

/-! ## Stream and message buffers: model of src/src/RTOScppBuffer.h -/

namespace Buffers

/-- The DataBuffer wrapper (class `Internal::DataBuffer` of RTOScppBuffer.h):
the `_handle` pointer plus the byte count currently stored in the kernel
stream/message buffer it points to (meaningful only when `handle` is set). -/
structure DataBuffer where
  handle : Option Nat
  bytes : Nat
deriving DecidableEq

/-- DataBuffer::getHandle (RTOScppBuffer.h line 288). -/
def DataBuffer.getHandle (b : DataBuffer) : Option Nat := b.handle

/-- Policy::isCreated (line 130): `_handle != nullptr`. -/
def DataBuffer.isCreated (b : DataBuffer) : Bool := b.handle.isSome

/-- DataBuffer::operator bool (line 401): `return isCreated();`. -/
def DataBuffer.opBool (b : DataBuffer) : Bool := b.isCreated

/-- Kernel primitive xStreamBufferGenericCreateStatic: initialise a fresh
empty stream or message buffer in the caller-supplied control block at address
`ctrl`; creation with valid storage always succeeds. -/
def xStreamBufferGenericCreateStatic (ctrl : Nat) : Nat × Nat :=
  (ctrl, 0)

/-- StreamBufferExternalStoragePolicy::create (RTOScppBuffer.h lines 197-209):
`if (buffer == nullptr) return false;` then an unconditional
xStreamBufferGenericCreateStatic into the embedded control block; no
already-created guard. `ctrl` is the fixed address of the embedded
`_buf_buffer`, and the trailing `Nat` counts kernel create invocations
performed by this call. -/
def StreamBufferExternalStoragePolicy.create (b : DataBuffer) (ctrl : Nat)
    (buffer : Option Nat) : Bool × DataBuffer × Nat :=
  match buffer with
  | none => (false, b, 0)
  | some _ =>
    let r := xStreamBufferGenericCreateStatic ctrl
    (true, { handle := some r.1, bytes := r.2 }, 1)

/-- MessageBufferExternalStoragePolicy::create (RTOScppBuffer.h lines
255-267): identical shape to the stream buffer variant (null-buffer guard,
then an unconditional kernel create; no already-created guard). -/
def MessageBufferExternalStoragePolicy.create (b : DataBuffer) (ctrl : Nat)
    (buffer : Option Nat) : Bool × DataBuffer × Nat :=
  match buffer with
  | none => (false, b, 0)
  | some _ =>
    let r := xStreamBufferGenericCreateStatic ctrl
    (true, { handle := some r.1, bytes := r.2 }, 1)

end Buffers

/-! ## Timers: model of src/src/RTOScppTimer.h -/

namespace Timers

/-- FreeRTOS software-timer kernel object. -/
structure KTimer where
  period : Nat
  autoReload : Bool
  active : Bool
  id : Option Nat
deriving DecidableEq

/-- Kernel primitive xTimerCreate: allocate a dormant timer (allocation is
assumed to succeed). -/
def xTimerCreate (period : Nat) (autoReload : Bool) (id : Option Nat) : KTimer :=
  { period := period, autoReload := autoReload, active := false, id := id }

/-- Kernel primitive xTimerStart. -/
def xTimerStart (t : KTimer) : KTimer := { t with active := true }

/-- The Timer wrapper (class `Internal::Timer` of RTOScppTimer.h). The handle
is modelled as the kernel timer object it would point to (`none` for
`nullptr`); timers are never wait-set members, so no separate handle identity
is needed. -/
structure Timer where
  handle : Option KTimer
deriving DecidableEq

/-- Timer::isCreated (RTOScppTimer.h line 285): `getHandle() != nullptr`. -/
def Timer.isCreated (t : Timer) : Bool := t.handle.isSome

/-- Timer::operator bool (line 455): `return isCreated();`. -/
def Timer.opBool (t : Timer) : Bool := t.isCreated

/-- DynamicPolicy::createImpl (RTOScppTimer.h lines 202-211): xTimerCreate,
then `if (start) xTimerStart(...)`, returning true. The name and callback
pointers are abstracted as nullable `Option Nat` values; the trailing `Nat`
counts kernel create invocations performed by this call. -/
def DynamicPolicy.createImpl (period : Nat) (id : Option Nat)
    (autoReload startNow : Bool) : Bool × Timer × Nat :=
  let kt := xTimerCreate period autoReload id
  let kt := if startNow then xTimerStart kt else kt
  (true, { handle := some kt }, 1)

/-- Policy::create (RTOScppTimer.h lines 186-193):
`if (_handle != nullptr) return true;
 if (name == nullptr || callback == nullptr || period == 0) return false;
 return createImpl(...);` -/
def Timer.create (t : Timer) (name callback : Option Nat) (period : Nat)
    (id : Option Nat) (autoReload startNow : Bool) : Bool × Timer × Nat :=
  if t.handle.isSome then (true, t, 0)
  else if name.isNone || callback.isNone || period == 0 then (false, t, 0)
  else DynamicPolicy.createImpl period id autoReload startNow

end Timers

/-! ## Queue sets: model of src/src/RTOScppQueueSet.h -/

namespace QueueSets

open Locks Queues RingBuffers

/-- FreeRTOS queue-set kernel object: the registered member wait handles. -/
structure KQueueSet where
  members : List Nat
deriving DecidableEq

/-- Kernel primitive xQueueAddToSet: register the member handle; fails when
the handle is already registered (FreeRTOS also fails when the member is
non-empty or in another set; those preconditions are documented caller
obligations and are not modelled). -/
def xQueueAddToSet (memberH : Nat) (ks : KQueueSet) : Bool × KQueueSet :=
  if ks.members.contains memberH then (false, ks)
  else (true, { members := ks.members ++ [memberH] })

/-- Kernel primitive xQueueRemoveFromSet: unregister the member handle; fails
when it is not registered. -/
def xQueueRemoveFromSet (memberH : Nat) (ks : KQueueSet) : Bool × KQueueSet :=
  if ks.members.contains memberH then
    (true, { members := ks.members.filter (fun h => h != memberH) })
  else (false, ks)

/-- Kernel primitive xQueueSelectFromSet: `ready` is the set of member handles
holding an event within the wait window; the call returns a registered ready
member handle, or `none` (a null token) when the timeout elapses with no
registered member ready. -/
def xQueueSelectFromSet (ks : KQueueSet) (ready : List Nat) : Option Nat :=
  ks.members.find? (fun h => ready.contains h)

/-- The QueueSet wrapper (class `QueueSet` of RTOScppQueueSet.h): the `_handle`
pointer modelled as the kernel set object it points to (`none` for
`nullptr`). -/
structure QueueSet where
  handle : Option KQueueSet
deriving DecidableEq

/-- QueueSet::isCreated (RTOScppQueueSet.h line 50): `_handle != nullptr`. -/
def QueueSet.isCreated (s : QueueSet) : Bool := s.handle.isSome

/-- QueueSet::add(ILock&) (lines 58-61): `if (!isCreated() || !lock) return
false; return xQueueAddToSet(lock.getHandle(), _handle);` (`!lock` is the
member's operator bool, i.e. its isCreated). -/
def QueueSet.addLock (s : QueueSet) (l : Lock) : Bool × QueueSet :=
  match s.handle with
  | none => (false, s)
  | some ks =>
    match l.handle with
    | none => (false, s)
    | some memberH =>
      let r := xQueueAddToSet memberH ks
      (r.1, { handle := some r.2 })

/-- QueueSet::add(IQueue&) (lines 69-72): same gating as addLock. -/
def QueueSet.addQueue (s : QueueSet) (q : Queue) : Bool × QueueSet :=
  match s.handle with
  | none => (false, s)
  | some ks =>
    match q.handle with
    | none => (false, s)
    | some memberH =>
      let r := xQueueAddToSet memberH ks
      (r.1, { handle := some r.2 })

/-- QueueSet::add(IRingBuffer&) (lines 80-83): same gating, via
xRingbufferAddToQueueSetRead which registers the ring buffer's wait handle
(modelled like xQueueAddToSet). -/
def QueueSet.addRingBuffer (s : QueueSet) (w : RingBuffer) : Bool × QueueSet :=
  match s.handle with
  | none => (false, s)
  | some ks =>
    match w.handle with
    | none => (false, s)
    | some memberH =>
      let r := xQueueAddToSet memberH ks
      (r.1, { handle := some r.2 })

/-- QueueSet::remove(ILock&) (lines 91-94): `if (!isCreated() || !lock) return
false; return xQueueRemoveFromSet(lock.getHandle(), _handle);`. -/
def QueueSet.removeLock (s : QueueSet) (l : Lock) : Bool × QueueSet :=
  match s.handle with
  | none => (false, s)
  | some ks =>
    match l.handle with
    | none => (false, s)
    | some memberH =>
      let r := xQueueRemoveFromSet memberH ks
      (r.1, { handle := some r.2 })

/-- QueueSet::remove(IQueue&) (lines 102-105): same gating as removeLock. -/
def QueueSet.removeQueue (s : QueueSet) (q : Queue) : Bool × QueueSet :=
  match s.handle with
  | none => (false, s)
  | some ks =>
    match q.handle with
    | none => (false, s)
    | some memberH =>
      let r := xQueueRemoveFromSet memberH ks
      (r.1, { handle := some r.2 })

/-- QueueSet::remove(IRingBuffer&) (lines 113-116): same gating, via
xRingbufferRemoveFromQueueSetRead (modelled like xQueueRemoveFromSet). -/
def QueueSet.removeRingBuffer (s : QueueSet) (w : RingBuffer) : Bool × QueueSet :=
  match s.handle with
  | none => (false, s)
  | some ks =>
    match w.handle with
    | none => (false, s)
    | some memberH =>
      let r := xQueueRemoveFromSet memberH ks
      (r.1, { handle := some r.2 })

/-- QueueSet::select (lines 124-127): `if (!isCreated()) return nullptr;
return xQueueSelectFromSet(_handle, ticks_to_wait);`. The `ready` argument
abstracts which member handles hold an event within the wait window. -/
def QueueSet.select (s : QueueSet) (ready : List Nat) : Option Nat :=
  match s.handle with
  | none => none
  | some ks => xQueueSelectFromSet ks ready

/-- QueueSet::selectFromISR (lines 134-137): same gating as select, with a
zero wait window. -/
def QueueSet.selectFromISR (s : QueueSet) (ready : List Nat) : Option Nat :=
  match s.handle with
  | none => none
  | some ks => xQueueSelectFromSet ks ready

end QueueSets

/-! ## Claim theorems -/

/-- Claim C1. The claim states that calling create a second time on an
already-created wrapper with valid, identical arguments is a safe no-op that
returns true with no re-creation of the kernel handle, for every wrapper with
a create operation. The code violates this for the external-storage wrappers:
ExternalStoragePolicy::create (RTOScppQueue.h lines 152-156) has no
already-created guard, so the second call re-invokes the kernel create
primitive (create count 1, not 0) and re-initialises the queue, discarding the
queued item 5 — not a no-op. Only Timer::create (RTOScppTimer.h lines 186-193)
has the guard and is a genuine no-op (create count 0, state unchanged). -/
theorem claim_C1_second_create_reinvokes_kernel :
    Queues.ExternalStoragePolicy.create
        { handle := some 100, kq := { length := 2, items := [5] } } 2 100 (some 200)
      = (true, { handle := some 100, kq := { length := 2, items := [] } }, 1)
    ∧ Timers.Timer.create
        { handle := some { period := 10, autoReload := false, active := false, id := none } }
        (some 1) (some 2) 10 none false false
      = (true,
         { handle := some { period := 10, autoReload := false, active := false, id := none } },
         0) := by
  constructor
  · rfl
  · rfl

/-- Claim C2. The claim states that every operation on a freshly constructed,
never-created wrapper returns a failure value and never invokes the kernel,
including RingBuffer sendFromISR. The guarded operations do behave this way
(queue addFromISR and popFromISR, lock take, ring buffer send all return their
failure value with the wrapper unchanged), but Policy::sendFromISR
(RTOScppRingBuffer.h lines 109-111) has no isCreated() guard: it passes the
null `_handle` straight to xRingbufferSendFromISR, whose result on a null
handle is undefined (modelled `none`), contradicting both the claim and the
function's own doc comment. -/
theorem claim_C2_sendFromISR_lacks_uncreated_guard :
    RingBuffers.RingBuffer.sendFromISR { handle := none, krb := { size := 64, items := [] } } 4
      = none
    ∧ RingBuffers.RingBuffer.send { handle := none, krb := { size := 64, items := [] } } 4
      = some (false, { handle := none, krb := { size := 64, items := [] } })
    ∧ Queues.Queue.addFromISR { handle := none, kq := { length := 3, items := [] } } 7
      = (false, { handle := none, kq := { length := 3, items := [] } })
    ∧ Queues.Queue.popFromISR { handle := none, kq := { length := 3, items := [] } }
      = (none, { handle := none, kq := { length := 3, items := [] } })
    ∧ Locks.Lock.take { handle := none, avail := 0, maxCount := 1 }
      = (false, { handle := none, avail := 0, maxCount := 1 }) := by
  refine ⟨rfl, rfl, rfl, rfl, rfl⟩

/-- Claim C3: the wait-set member equality predicate is plain handle identity
for locks and queues, but for ring buffers it is the kernel readability query
xRingbufferCanRead, which is not handle identity: a token equal to the ring
buffer's handle does not match when no committed item is readable, and does
match when one is. -/
theorem claim_C3_member_equality_predicates :
    (∀ (t : Nat) (l : Locks.Lock), Locks.lockMemberEq t l = (some t == l.getHandle))
    ∧ (∀ (t : Nat) (q : Queues.Queue), Queues.queueMemberEq t q = (some t == q.getHandle))
    ∧ (∀ (t : Nat) (w : RingBuffers.RingBuffer),
        RingBuffers.ringbufMemberEq t w = RingBuffers.xRingbufferCanRead w t)
    ∧ (∃ (t : Nat) (w : RingBuffers.RingBuffer),
        (some t == w.getHandle) = true ∧ RingBuffers.ringbufMemberEq t w = false)
    ∧ (∃ (t : Nat) (w : RingBuffers.RingBuffer),
        (some t == w.getHandle) = true ∧ RingBuffers.ringbufMemberEq t w = true) := by
  refine ⟨fun t l => rfl, fun t q => rfl, fun t w => rfl, ?_, ?_⟩
  · exact ⟨5, { handle := some 5, krb := { size := 64, items := [] } }, by decide, by decide⟩
  · exact ⟨5, { handle := some 5, krb := { size := 64, items := [4] } }, by decide, by decide⟩

/-- Claim C7: on a created queue of length 3, add then pop is FIFO (adding
1, 2, 3 pops as 1, 2, 3) and push then pop is LIFO (pushing 1, 2, 3 pops as
3, 2, 1), every call succeeding. -/
theorem claim_C7_fifo_lifo_order :
    (((Queues.Queue.mk (some 1) { length := 3, items := [] }).add 1).1 = true
      ∧ (((Queues.Queue.mk (some 1) { length := 3, items := [] }).add 1).2.add 2).1 = true
      ∧ ((((Queues.Queue.mk (some 1) { length := 3, items := [] }).add 1).2.add 2).2.add 3).1
          = true
      ∧ (((((Queues.Queue.mk (some 1) { length := 3, items := [] }).add 1).2.add 2).2.add
          3).2.popN 3).1 = [1, 2, 3])
    ∧ (((Queues.Queue.mk (some 1) { length := 3, items := [] }).push 1).1 = true
      ∧ (((Queues.Queue.mk (some 1) { length := 3, items := [] }).push 1).2.push 2).1 = true
      ∧ ((((Queues.Queue.mk (some 1) { length := 3, items := [] }).push 1).2.push 2).2.push
          3).1 = true
      ∧ (((((Queues.Queue.mk (some 1) { length := 3, items := [] }).push 1).2.push 2).2.push
          3).2.popN 3).1 = [3, 2, 1]) := by
  decide

/-- Claim C8: on a created queue of length 1, overwrite(1) then overwrite(2)
both return true, exactly one message is present after each call, and the
peeked value afterwards is 2. -/
theorem claim_C8_overwrite_length_one :
    ((Queues.Queue.mk (some 1) { length := 1, items := [] }).overwrite 1).1 = true
    ∧ ((Queues.Queue.mk (some 1) { length := 1, items := [] }).overwrite
        1).2.getAvailableMessages = 1
    ∧ (((Queues.Queue.mk (some 1) { length := 1, items := [] }).overwrite 1).2.overwrite 2).1
        = true
    ∧ (((Queues.Queue.mk (some 1) { length := 1, items := [] }).overwrite 1).2.overwrite
        2).2.getAvailableMessages = 1
    ∧ (((Queues.Queue.mk (some 1) { length := 1, items := [] }).overwrite 1).2.overwrite
        2).2.peek = some 2 := by
  decide

/-- Claim C9: for locks, queues, ring buffers and stream/message buffers, the
explicit boolean conversion returns exactly isCreated(), and it is insensitive
to any other component of the state (in particular to whether a lock is
currently taken, i.e. to its available-token count, and to a queue's
contents). -/
theorem claim_C9_opBool_equals_isCreated :
    (∀ l : Locks.Lock, l.opBool = l.isCreated)
    ∧ (∀ q : Queues.Queue, q.opBool = q.isCreated)
    ∧ (∀ w : RingBuffers.RingBuffer, w.opBool = w.isCreated)
    ∧ (∀ b : Buffers.DataBuffer, b.opBool = b.isCreated)
    ∧ (∀ (h : Option Nat) (a a2 m m2 : Nat),
        Locks.Lock.opBool { handle := h, avail := a, maxCount := m }
          = Locks.Lock.opBool { handle := h, avail := a2, maxCount := m2 })
    ∧ (∀ (h : Option Nat) (kq kq2 : Queues.KQueue),
        Queues.Queue.opBool { handle := h, kq := kq }
          = Queues.Queue.opBool { handle := h, kq := kq2 }) := by
  refine ⟨fun l => rfl, fun q => rfl, fun w => rfl, fun b => rfl,
    fun h a a2 m m2 => rfl, fun h kq kq2 => rfl⟩

/-- Claim C10. The claim states Queue::reset returns false when the queue is
not created and true after resetting when it is created. The uncreated branch
does return false, but the created branch of Queue::reset (RTOScppQueue.h
lines 216-219) executes xQueueReset and then falls off the end of the bool
function without a return statement, so its result is undefined (modelled
`none`), not true — contradicting the function's own doc comment. -/
theorem claim_C10_reset_missing_return :
    Queues.Queue.reset { handle := some 1, kq := { length := 3, items := [7] } }
      = (none, { handle := some 1, kq := { length := 3, items := [] } })
    ∧ Queues.Queue.reset { handle := none, kq := { length := 3, items := [7] } }
      = (some false, { handle := none, kq := { length := 3, items := [7] } }) := by
  constructor
  · rfl
  · rfl

/-- Claim C4: every QueueSet operation is gated on creation state. Each add
and remove overload returns false and leaves the kernel set untouched whenever
the queue set is not created or the member wrapper is not created (whatever
the state of the other side); select and selectFromISR return a null token
when the queue set is not created; and select returns a null token when the
wait elapses with no registered member ready. -/
theorem claim_C4_queueset_gating :
    (∀ (s : QueueSets.QueueSet) (l : Locks.Lock), s.handle = none →
      s.addLock l = (false, s) ∧ s.removeLock l = (false, s))
    ∧ (∀ (s : QueueSets.QueueSet) (q : Queues.Queue), s.handle = none →
      s.addQueue q = (false, s) ∧ s.removeQueue q = (false, s))
    ∧ (∀ (s : QueueSets.QueueSet) (w : RingBuffers.RingBuffer), s.handle = none →
      s.addRingBuffer w = (false, s) ∧ s.removeRingBuffer w = (false, s))
    ∧ (∀ (s : QueueSets.QueueSet) (l : Locks.Lock), l.handle = none →
      s.addLock l = (false, s) ∧ s.removeLock l = (false, s))
    ∧ (∀ (s : QueueSets.QueueSet) (q : Queues.Queue), q.handle = none →
      s.addQueue q = (false, s) ∧ s.removeQueue q = (false, s))
    ∧ (∀ (s : QueueSets.QueueSet) (w : RingBuffers.RingBuffer), w.handle = none →
      s.addRingBuffer w = (false, s) ∧ s.removeRingBuffer w = (false, s))
    ∧ (∀ (s : QueueSets.QueueSet) (ready : List Nat), s.handle = none →
      s.select ready = none ∧ s.selectFromISR ready = none)
    ∧ (∀ (ks : QueueSets.KQueueSet) (ready : List Nat),
      (∀ h, h ∈ ks.members → ready.contains h = false) →
      QueueSets.QueueSet.select { handle := some ks } ready = none) := by
  refine ⟨?_, ?_, ?_, ?_, ?_, ?_, ?_, ?_⟩
  · intro s l hs
    simp [QueueSets.QueueSet.addLock, QueueSets.QueueSet.removeLock, hs]
  · intro s q hs
    simp [QueueSets.QueueSet.addQueue, QueueSets.QueueSet.removeQueue, hs]
  · intro s w hs
    simp [QueueSets.QueueSet.addRingBuffer, QueueSets.QueueSet.removeRingBuffer, hs]
  · intro s l hl
    cases hs : s.handle with
    | none => simp [QueueSets.QueueSet.addLock, QueueSets.QueueSet.removeLock, hs]
    | some ks => simp [QueueSets.QueueSet.addLock, QueueSets.QueueSet.removeLock, hs, hl]
  · intro s q hq
    cases hs : s.handle with
    | none => simp [QueueSets.QueueSet.addQueue, QueueSets.QueueSet.removeQueue, hs]
    | some ks => simp [QueueSets.QueueSet.addQueue, QueueSets.QueueSet.removeQueue, hs, hq]
  · intro s w hw
    cases hs : s.handle with
    | none =>
      simp [QueueSets.QueueSet.addRingBuffer, QueueSets.QueueSet.removeRingBuffer, hs]
    | some ks =>
      simp [QueueSets.QueueSet.addRingBuffer, QueueSets.QueueSet.removeRingBuffer, hs, hw]
  · intro s ready hs
    simp [QueueSets.QueueSet.select, QueueSets.QueueSet.selectFromISR, hs]
  · intro ks ready hready
    simp only [QueueSets.QueueSet.select, QueueSets.xQueueSelectFromSet]
    rw [List.find?_eq_none]
    intro h hm
    simpa using hready h hm

/-- Witness for claim C4: the gating at concrete inputs — an uncreated set
rejects a created lock, a created set rejects an uncreated queue, an uncreated
set selects a null token, and a created set whose single member 3 holds no
event selects a null token. -/
theorem claim_C4_queueset_gating_witness :
    (QueueSets.QueueSet.addLock { handle := none } { handle := some 3, avail := 1, maxCount := 1 }
      = (false, { handle := none }))
    ∧ (QueueSets.QueueSet.addQueue { handle := some { members := [] } }
        { handle := none, kq := { length := 3, items := [] } }
      = (false, { handle := some { members := [] } }))
    ∧ (QueueSets.QueueSet.select { handle := none } [3] = none)
    ∧ (QueueSets.QueueSet.select { handle := some { members := [3] } } [4] = none) :=
  ⟨(claim_C4_queueset_gating.1 { handle := none }
      { handle := some 3, avail := 1, maxCount := 1 } rfl).1,
   (claim_C4_queueset_gating.2.2.2.2.1 { handle := some { members := [] } }
      { handle := none, kq := { length := 3, items := [] } } rfl).1,
   (claim_C4_queueset_gating.2.2.2.2.2.2.1 { handle := none } [3] rfl).1,
   claim_C4_queueset_gating.2.2.2.2.2.2.2 { members := [3] } [4] (by decide)⟩

/-- Claim C5: for every external-storage wrapper (queue, no-split ring buffer,
stream buffer, message buffer) create with a null buffer pointer returns false
and is free of side effects (the wrapper state is returned unchanged and the
kernel create primitive is not invoked), so an uncreated wrapper stays
uncreated; and Timer create on an uncreated timer with a null name, null
callback or zero period returns false with no side effect. -/
theorem claim_C5_invalid_create_leaves_uncreated :
    (∀ (w : Queues.Queue) (len ctrl : Nat),
      Queues.ExternalStoragePolicy.create w len ctrl none = (false, w, 0))
    ∧ (∀ (w : RingBuffers.RingBuffer) (size ctrl : Nat),
      RingBuffers.NoSplitExternalStoragePolicy.create w size ctrl none = (false, w, 0))
    ∧ (∀ (b : Buffers.DataBuffer) (ctrl : Nat),
      Buffers.StreamBufferExternalStoragePolicy.create b ctrl none = (false, b, 0))
    ∧ (∀ (b : Buffers.DataBuffer) (ctrl : Nat),
      Buffers.MessageBufferExternalStoragePolicy.create b ctrl none = (false, b, 0))
    ∧ (∀ (t : Timers.Timer) (name callback : Option Nat) (period : Nat) (id : Option Nat)
        (autoReload startNow : Bool), t.handle = none →
      (name = none ∨ callback = none ∨ period = 0) →
      Timers.Timer.create t name callback period id autoReload startNow = (false, t, 0)) := by
  refine ⟨fun w len ctrl => rfl, fun w size ctrl => rfl, fun b ctrl => rfl,
    fun b ctrl => rfl, ?_⟩
  intro t name callback period id autoReload startNow ht harg
  have hns : t.handle.isSome = false := by simp [ht]
  rcases harg with h | h | h
  · simp [Timers.Timer.create, hns, h]
  · simp [Timers.Timer.create, hns, h]
  · simp [Timers.Timer.create, hns, h]

/-- Witness for claim C5: concrete invalid creates — a null buffer on an
external-storage queue wrapper and a null name on an uncreated timer both
return false and change nothing. -/
theorem claim_C5_invalid_create_leaves_uncreated_witness :
    Queues.ExternalStoragePolicy.create
        { handle := none, kq := { length := 2, items := [] } } 2 100 none
      = (false, { handle := none, kq := { length := 2, items := [] } }, 0)
    ∧ Timers.Timer.create { handle := none } none (some 2) 10 none false false
      = (false, { handle := none }, 0) :=
  ⟨claim_C5_invalid_create_leaves_uncreated.1
      { handle := none, kq := { length := 2, items := [] } } 2 100,
   claim_C5_invalid_create_leaves_uncreated.2.2.2.2
      { handle := none } none (some 2) 10 none false false rfl (Or.inl rfl)⟩

/-- Helper: on a created queue, isFull compares the free slot count with 0. -/
theorem Queues.isFull_eq (w : Queues.Queue) (p : Nat) (hh : w.handle = some p) :
    w.isFull = (w.kq.length - w.kq.items.length == 0) := by
  simp [Queues.Queue.isFull, hh, Queues.uxQueueSpacesAvailable]

/-- Helper: on a created queue, isEmpty compares the item count with 0. -/
theorem Queues.isEmpty_eq (w : Queues.Queue) (p : Nat) (hh : w.handle = some p) :
    w.isEmpty = (w.kq.items.length == 0) := by
  simp [Queues.Queue.isEmpty, hh, Queues.uxQueueMessagesWaiting]

/-- Helper: a run of Queue::add calls that fits entirely in the remaining
space keeps the handle and capacity and appends exactly the given items. -/
theorem Queues.addAll_spec (xs : List Int) :
    ∀ (w : Queues.Queue) (p : Nat), w.handle = some p →
      w.kq.items.length + xs.length ≤ w.kq.length →
      (w.addAll xs).handle = some p ∧ (w.addAll xs).kq.length = w.kq.length ∧
        (w.addAll xs).kq.items = w.kq.items ++ xs := by
  induction xs with
  | nil =>
    intro w p hh _
    simp [Queues.Queue.addAll, hh]
  | cons x xs ih =>
    rintro ⟨wh, len, its⟩ p hh hlen
    have hwh : wh = some p := hh
    subst hwh
    have hlen2 : its.length + (x :: xs).length ≤ len := hlen
    have hlt : its.length < len := by
      simp only [List.length_cons] at hlen2
      omega
    have hstep : ((Queues.Queue.mk (some p) ⟨len, its⟩).add x).2
        = Queues.Queue.mk (some p) ⟨len, its ++ [x]⟩ := by
      simp [Queues.Queue.add, Queues.xQueueSendToBack, hlt]
    have hrec := ih (Queues.Queue.mk (some p) ⟨len, its ++ [x]⟩) p rfl (by
      show (its ++ [x]).length + xs.length ≤ len
      simp only [List.length_append, List.length_singleton, List.length_cons,
        List.length_nil] at hlen2 ⊢
      omega)
    have hunfold : (Queues.Queue.mk (some p) ⟨len, its⟩).addAll (x :: xs)
        = ((Queues.Queue.mk (some p) ⟨len, its⟩).add x).2.addAll xs := rfl
    rw [hunfold, hstep]
    refine ⟨hrec.1, hrec.2.1, ?_⟩
    rw [hrec.2.2]
    simp

/-- Helper: a run of n Queue::pop calls on a created queue keeps the handle
and capacity and drops the first n items. -/
theorem Queues.popAll_spec (n : Nat) :
    ∀ (w : Queues.Queue) (p : Nat), w.handle = some p →
      (w.popAll n).handle = some p ∧ (w.popAll n).kq.length = w.kq.length ∧
        (w.popAll n).kq.items = w.kq.items.drop n := by
  induction n with
  | zero =>
    intro w p hh
    simp [Queues.Queue.popAll, hh]
  | succ n ih =>
    rintro ⟨wh, len, its⟩ p hh
    have hwh : wh = some p := hh
    subst hwh
    cases its with
    | nil =>
      have hrec := ih (Queues.Queue.mk (some p) ⟨len, []⟩) p rfl
      have hunfold : (Queues.Queue.mk (some p) ⟨len, []⟩).popAll (n + 1)
          = ((Queues.Queue.mk (some p) ⟨len, []⟩).pop).2.popAll n := rfl
      have hstep : ((Queues.Queue.mk (some p) ⟨len, []⟩).pop).2
          = Queues.Queue.mk (some p) ⟨len, []⟩ := rfl
      rw [hunfold, hstep]
      refine ⟨hrec.1, hrec.2.1, ?_⟩
      rw [hrec.2.2]
      simp
    | cons y ys =>
      have hrec := ih (Queues.Queue.mk (some p) ⟨len, ys⟩) p rfl
      have hunfold : (Queues.Queue.mk (some p) ⟨len, y :: ys⟩).popAll (n + 1)
          = ((Queues.Queue.mk (some p) ⟨len, y :: ys⟩).pop).2.popAll n := rfl
      have hstep : ((Queues.Queue.mk (some p) ⟨len, y :: ys⟩).pop).2
          = Queues.Queue.mk (some p) ⟨len, ys⟩ := rfl
      rw [hunfold, hstep]
      refine ⟨hrec.1, hrec.2.1, ?_⟩
      rw [hrec.2.2]
      simp

/-- Claim C6: on a created queue whose item count respects its capacity (the
kernel invariant), after any add and after any pop the available spaces plus
the available messages equal the queue length N; and starting from a created
empty queue of length N > 0, adding N items makes isFull true and isEmpty
false, and popping all N items restores isEmpty to true. -/
theorem claim_C6_capacity_round_trip :
    (∀ (w : Queues.Queue) (x : Int), w.isCreated = true →
      w.kq.items.length ≤ w.kq.length →
      ((w.add x).2.getAvailableSpaces + (w.add x).2.getAvailableMessages = w.kq.length
        ∧ (w.pop).2.getAvailableSpaces + (w.pop).2.getAvailableMessages = w.kq.length))
    ∧ (∀ (n : Nat) (xs : List Int), 0 < n → xs.length = n →
      ((Queues.Queue.mk (some 1) ⟨n, []⟩).addAll xs).isFull = true
      ∧ ((Queues.Queue.mk (some 1) ⟨n, []⟩).addAll xs).isEmpty = false
      ∧ (((Queues.Queue.mk (some 1) ⟨n, []⟩).addAll xs).popAll n).isEmpty = true) := by
  constructor
  · rintro ⟨wh, len, its⟩ x hcr hinv
    obtain ⟨p, hp⟩ : ∃ p, wh = some p := by
      cases hw : wh with
      | none =>
        rw [Queues.Queue.isCreated] at hcr
        rw [hw] at hcr
        simp at hcr
      | some p => exact ⟨p, rfl⟩
    subst hp
    have hinv2 : its.length ≤ len := hinv
    constructor
    · by_cases hlt : its.length < len
      · simp [Queues.Queue.add, Queues.xQueueSendToBack, hlt,
          Queues.Queue.getAvailableSpaces, Queues.Queue.getAvailableMessages,
          Queues.uxQueueSpacesAvailable, Queues.uxQueueMessagesWaiting]
        omega
      · simp [Queues.Queue.add, Queues.xQueueSendToBack, hlt,
          Queues.Queue.getAvailableSpaces, Queues.Queue.getAvailableMessages,
          Queues.uxQueueSpacesAvailable, Queues.uxQueueMessagesWaiting]
        omega
    · cases its with
      | nil =>
        simp [Queues.Queue.pop, Queues.xQueueReceive,
          Queues.Queue.getAvailableSpaces, Queues.Queue.getAvailableMessages,
          Queues.uxQueueSpacesAvailable, Queues.uxQueueMessagesWaiting]
      | cons y ys =>
        have hys : ys.length + 1 ≤ len := by simpa using hinv2
        simp [Queues.Queue.pop, Queues.xQueueReceive,
          Queues.Queue.getAvailableSpaces, Queues.Queue.getAvailableMessages,
          Queues.uxQueueSpacesAvailable, Queues.uxQueueMessagesWaiting]
        omega
  · intro n xs hn hxs
    obtain ⟨hh, hlenq, hitems⟩ :=
      Queues.addAll_spec xs (Queues.Queue.mk (some 1) ⟨n, []⟩) 1 rfl (by simp [hxs])
    simp only [List.nil_append] at hitems
    have hlenq2 : ((Queues.Queue.mk (some 1) ⟨n, []⟩).addAll xs).kq.length = n := hlenq
    refine ⟨?_, ?_, ?_⟩
    · rw [Queues.isFull_eq _ 1 hh, hlenq2, hitems, hxs]
      simp
    · rw [Queues.isEmpty_eq _ 1 hh, hitems, hxs]
      simp only [beq_eq_false_iff_ne]
      omega
    · obtain ⟨hh2, _, hitems2⟩ :=
        Queues.popAll_spec n ((Queues.Queue.mk (some 1) ⟨n, []⟩).addAll xs) 1 hh
      rw [Queues.isEmpty_eq _ 1 hh2, hitems2, hitems]
      have hdrop : List.drop n xs = [] := List.drop_eq_nil_of_le hxs.le
      simp [hdrop]

/-- Witness for claim C6: the invariant at a concrete created queue of length
2 holding one item, and the full round trip on a length-3 queue with items
1, 2, 3. -/
theorem claim_C6_capacity_round_trip_witness :
    (((Queues.Queue.mk (some 1) ⟨2, [5]⟩).add 7).2.getAvailableSpaces
        + ((Queues.Queue.mk (some 1) ⟨2, [5]⟩).add 7).2.getAvailableMessages = 2
      ∧ ((Queues.Queue.mk (some 1) ⟨2, [5]⟩).pop).2.getAvailableSpaces
        + ((Queues.Queue.mk (some 1) ⟨2, [5]⟩).pop).2.getAvailableMessages = 2)
    ∧ (((Queues.Queue.mk (some 1) ⟨3, []⟩).addAll [1, 2, 3]).isFull = true
      ∧ ((Queues.Queue.mk (some 1) ⟨3, []⟩).addAll [1, 2, 3]).isEmpty = false
      ∧ (((Queues.Queue.mk (some 1) ⟨3, []⟩).addAll [1, 2, 3]).popAll 3).isEmpty = true) :=
  ⟨claim_C6_capacity_round_trip.1 (Queues.Queue.mk (some 1) ⟨2, [5]⟩) 7 rfl (by decide),
   claim_C6_capacity_round_trip.2 3 [1, 2, 3] (by decide) rfl⟩

end RTOScpp
